import Mathlib

/-!
Verification of `PLBenchmarks/utils.py` (binding-affinity observable
conversions and external identifier resolution).

The embedding models `pint` quantities as a real magnitude together with a
unit; a unit is a dimension vector (exponents of the base dimensions
mass, length, time, temperature, amount of substance) together with a
positive scale factor relative to fixed coherent base units
(J/mol for molar energy, mol/m^3 for concentration, K for temperature).
`pint` raises `DimensionalityError` when dimensions do not match; Python
raising is modelled by explicit error results.  Machine floats are
idealised as real numbers.
-/

noncomputable section

/-- Dimension vector: exponents of (mass, length, time, temperature, amount). -/
abbrev Dim := ℤ × ℤ × ℤ × ℤ × ℤ

/-- Dimension of molar energy, e.g. J/mol = kg m^2 s^-2 mol^-1. -/
def dimEnergyPerMole : Dim := (1, 2, -2, 0, -1)

/-- Dimension of molar energy per temperature, e.g. J/mol/K (gas constant). -/
def dimEnergyPerMolePerKelvin : Dim := (1, 2, -2, -1, -1)

/-- Dimension of concentration (amount per volume), e.g. mol/m^3. -/
def dimConcentration : Dim := (0, -3, 0, 0, 1)

/-- Dimension of temperature. -/
def dimKelvin : Dim := (0, 0, 0, 1, 0)

/-- A `pint` unit: a dimension and a (positive) scale factor to base units. -/
structure PintUnit where
  dim : Dim
  scale : ℝ

/-- The dimensionless unit `ureg("")`. -/
def PintUnit.one : PintUnit := ⟨0, 1⟩

/-- The unit `kilocalories / mole`; 1 kcal = 4184 J. -/
def kilocaloriesPerMole : PintUnit := ⟨dimEnergyPerMole, 4184⟩

/-- The unit `J / mole / K`. -/
def joulesPerMolePerKelvin : PintUnit := ⟨dimEnergyPerMolePerKelvin, 1⟩

/-- The unit `kelvin`. -/
def kelvinUnit : PintUnit := ⟨dimKelvin, 1⟩

/-- The unit `molar` = mol/L = 1000 mol/m^3. -/
def molar : PintUnit := ⟨dimConcentration, 1000⟩

/-- The unit `nanomolar` = 1e-9 molar = 1e-6 mol/m^3. -/
def nanomolar : PintUnit := ⟨dimConcentration, 1e-6⟩

/-- A `pint` quantity: magnitude and unit. -/
structure Quantity where
  mag : ℝ
  u : PintUnit

/-- Value of a quantity expressed in base units. -/
def Quantity.base (q : Quantity) : ℝ := q.mag * q.u.scale

/-- Product of two quantities: magnitudes multiply, dimensions add,
scales multiply. -/
def Quantity.mulQ (q r : Quantity) : Quantity :=
  ⟨q.mag * r.mag, ⟨q.u.dim + r.u.dim, q.u.scale * r.u.scale⟩⟩

/-- Quotient of two quantities. -/
def Quantity.divQ (q r : Quantity) : Quantity :=
  ⟨q.mag / r.mag, ⟨q.u.dim - r.u.dim, q.u.scale / r.u.scale⟩⟩

/-- Scalar (Python float) times quantity. -/
def Quantity.fmul (c : ℝ) (q : Quantity) : Quantity := ⟨c * q.mag, q.u⟩

/-- Quantity times scalar (Python float). -/
def Quantity.mulF (q : Quantity) (c : ℝ) : Quantity := ⟨q.mag * c, q.u⟩

/-- Quantity divided by scalar (Python float). -/
def Quantity.divF (q : Quantity) (c : ℝ) : Quantity := ⟨q.mag / c, q.u⟩

/-- Scalar (Python float) divided by quantity: `1.0 / kBT` etc. -/
def Quantity.fdiv (c : ℝ) (q : Quantity) : Quantity :=
  ⟨c / q.mag, ⟨-q.u.dim, 1 / q.u.scale⟩⟩

/-- Negation of a quantity. -/
def Quantity.neg (q : Quantity) : Quantity := ⟨-q.mag, q.u⟩

/-- Python-level errors that the conversion code can raise. -/
inductive PyErr where
  | notImplementedError : PyErr
  | dimensionalityError : PyErr
deriving DecidableEq

/-- Result of a Python function call: a value, the implicit `None` of
falling off the end of the function body, or a raised error. -/
inductive PyRes (α : Type) where
  | ok : α → PyRes α
  | retNone : PyRes α
  | raise : PyErr → PyRes α
deriving DecidableEq

/-- `q.to(u)`: convert to unit `u`; `pint` raises `DimensionalityError`
when the dimensions differ. -/
def Quantity.to (q : Quantity) (u : PintUnit) : Except PyErr Quantity :=
  if q.u.dim = u.dim then .ok ⟨q.mag * q.u.scale / u.scale, u⟩
  else .error .dimensionalityError

/-- `np.exp` on a quantity: requires a dimensionless argument, which `pint`
first converts to base units. -/
def qexp (q : Quantity) : Except PyErr Quantity :=
  if q.u.dim = 0 then .ok ⟨Real.exp (q.mag * q.u.scale), PintUnit.one⟩
  else .error .dimensionalityError

/-- `np.log` on a quantity: requires a dimensionless argument, which `pint`
first converts to base units. -/
def qlog (q : Quantity) : Except PyErr Quantity :=
  if q.u.dim = 0 then .ok ⟨Real.log (q.mag * q.u.scale), PintUnit.one⟩
  else .error .dimensionalityError

/-- `10 ** q` on a quantity: requires a dimensionless exponent, which `pint`
first converts to base units. -/
def q10pow (q : Quantity) : Except PyErr Quantity :=
  if q.u.dim = 0 then .ok ⟨(10 : ℝ) ^ (q.mag * q.u.scale), PintUnit.one⟩
  else .error .dimensionalityError

/-- Rounding half to even (the rounding used by `np.round`). -/
def roundHalfEven (x : ℝ) : ℤ :=
  if Int.fract x = 1 / 2 then 2 * ⌊x / 2 + 1 / 2⌋ else round x

/-- `.round(2)` of numpy/pint on a magnitude: round to 2 decimal places,
halves to even. -/
def round2 (x : ℝ) : ℝ := (roundHalfEven (100 * x) : ℤ) / 100

/-- `.round(2)` on a quantity (rounds the magnitude in its current unit). -/
def Quantity.round2Q (q : Quantity) : Quantity := ⟨round2 q.mag, q.u⟩

/-- Sequence a `pint` operation that may raise into the Python result. -/
def eBind (x : Except PyErr Quantity) (f : Quantity → PyRes Quantity) :
    PyRes Quantity :=
  match x with
  | .ok q => f q
  | .error e => .raise e

/-- A raised `pint` error propagates; an ok value is returned. -/
def toRes (x : Except PyErr Quantity) : PyRes Quantity :=
  match x with
  | .ok q => .ok q
  | .error e => .raise e

/-- `.round(2)` applied after a `pint` operation that may raise. -/
def mapRound (x : Except PyErr Quantity) : Except PyErr Quantity :=
  match x with
  | .ok q => .ok q.round2Q
  | .error e => .error e

/-- `scipy.constants.gas_constant` (CODATA value of R in J/mol/K). -/
def gasConstant : ℝ := 8.314462618

/-- `BOLTZMANN = constants.gas_constant * ureg("J / mole / K")`. -/
def BOLTZMANN : Quantity := ⟨gasConstant, joulesPerMolePerKelvin⟩

/-- The quantity `ureg.molar` (magnitude 1). -/
def molarQ : Quantity := ⟨1, molar⟩

/-- The quantity `ureg.kelvin` (magnitude 1). -/
def kelvinQ : Quantity := ⟨1, kelvinUnit⟩

/-- `BOLTZMANN * temperature * ureg.kelvin`, used throughout the module. -/
def kBT (temperature : ℝ) : Quantity := (BOLTZMANN.mulF temperature).mulQ kelvinQ

/-- Default output units assigned by `convertValue`/`convertError` when
`outUnit` is `None`: kcal/mol for `dg`, nanomolar for `ki` and `ic50`,
dimensionless for `pic50`, and `None` is kept for any other code. -/
def defaultUnit (finalObs : String) : Option PintUnit :=
  if finalObs = "dg" then some kilocaloriesPerMole
  else if finalObs = "ki" then some nanomolar
  else if finalObs = "ic50" then some nanomolar
  else if finalObs = "pic50" then some PintUnit.one
  else none

/-- The output unit actually used in a branch for final observable
`finalObs`: an explicitly passed `outUnit` wins, otherwise the default.
The `.getD` fallback is unreachable: every use site has `finalObs` equal
to one of the four supported codes, for which `defaultUnit` is `some`. -/
def resolveOutUnit (finalObs : String) (outUnit? : Option PintUnit) : PintUnit :=
  match outUnit? with
  | some u => u
  | none => (defaultUnit finalObs).getD PintUnit.one

/-- `convertValue(val, originalObs, finalObs, temperature, outUnit)` from
`PLBenchmarks/utils.py`.  Branch structure, guard conditions and formulas
follow the source line by line; `pint` comparisons convert the right operand
into the left operand's unit and raise on dimension mismatch. -/
def convertValue (val : Quantity) (originalObs finalObs : String)
    (temperature : ℝ) (outUnit? : Option PintUnit) : PyRes Quantity :=
  if originalObs = "dg" then
    if finalObs = "dg" then
      toRes (val.to (resolveOutUnit "dg" outUnit?))
    else if finalObs = "ki" then
      -- result = np.exp(-val / (BOLTZMANN * temperature * ureg.kelvin)) * ureg.molar
      eBind (qexp (val.neg.divQ (kBT temperature))) fun r =>
        toRes ((r.mulQ molarQ).to (resolveOutUnit "ki" outUnit?))
    else if finalObs = "ic50" then
      eBind (qexp (val.neg.divQ (kBT temperature))) fun r =>
        toRes ((r.mulQ molarQ).to (resolveOutUnit "ic50" outUnit?))
    else if finalObs = "pic50" then
      -- result = val / (BOLTZMANN * temperature * ureg.kelvin) / np.log(10)
      toRes (((val.divQ (kBT temperature)).divF (Real.log 10)).to
        (resolveOutUnit "pic50" outUnit?))
    else .raise .notImplementedError
  else if originalObs = "ki" then
    if finalObs = "dg" then
      -- if val < 1e-15 * ureg("molar"): return 0.0 * outUnit
      if val.u.dim = dimConcentration then
        if val.mag < 1e-15 * molar.scale / val.u.scale then
          .ok ⟨0, resolveOutUnit "dg" outUnit?⟩
        else
          -- result = BOLTZMANN * temperature * ureg.kelvin * np.log(val / ureg.molar)
          eBind (qlog (val.divQ molarQ)) fun lq =>
            toRes (mapRound (((kBT temperature).mulQ lq).to
              (resolveOutUnit "dg" outUnit?)))
      else .raise .dimensionalityError
    else if finalObs = "ki" then
      toRes (val.to (resolveOutUnit "ki" outUnit?))
    else if finalObs = "ic50" then
      toRes (val.to (resolveOutUnit "ic50" outUnit?))
    else if finalObs = "pic50" then
      if val.u.dim = dimConcentration then
        if val.mag < 1e-15 * molar.scale / val.u.scale then
          .ok ⟨-1e15, resolveOutUnit "pic50" outUnit?⟩
        else
          -- result = -np.log(val / ureg.molar) / np.log(10); returned directly
          eBind (qlog (val.divQ molarQ)) fun lq =>
            .ok (lq.neg.divF (Real.log 10))
      else .raise .dimensionalityError
    else .raise .notImplementedError
  else if originalObs = "ic50" then
    if finalObs = "dg" then
      if val.u.dim = dimConcentration then
        if val.mag < 1e-15 * molar.scale / val.u.scale then
          .ok ⟨0, resolveOutUnit "dg" outUnit?⟩
        else
          -- result = BOLTZMANN * T * ureg.kelvin * np.log(val.to("molar") / ureg.molar)
          eBind (val.to molar) fun vm =>
            eBind (qlog (vm.divQ molarQ)) fun lq =>
              toRes (mapRound (((kBT temperature).mulQ lq).to
                (resolveOutUnit "dg" outUnit?)))
      else .raise .dimensionalityError
    else if finalObs = "ki" then
      toRes (val.to (resolveOutUnit "ki" outUnit?))
    else if finalObs = "ic50" then
      toRes (val.to (resolveOutUnit "ic50" outUnit?))
    else if finalObs = "pic50" then
      -- if val.to("molar") < 1e-15 * ureg("molar")
      if val.u.dim = dimConcentration then
        if val.mag * val.u.scale / molar.scale < 1e-15 * molar.scale / molar.scale then
          .ok ⟨-1e15, resolveOutUnit "pic50" outUnit?⟩
        else
          eBind (qlog (val.divQ molarQ)) fun lq =>
            .ok (lq.neg.divF (Real.log 10))
      else .raise .dimensionalityError
    else .raise .notImplementedError
  else if originalObs = "pic50" then
    if finalObs = "dg" then
      -- result = -BOLTZMANN * temperature * ureg.kelvin * val * np.log(10)
      toRes (mapRound ((((kBT temperature).neg.mulQ val).mulF (Real.log 10)).to
        (resolveOutUnit "dg" outUnit?)))
    else if finalObs = "ki" then
      -- result = 10 ** (-val) * ureg("molar")
      eBind (q10pow val.neg) fun r =>
        toRes ((r.mulQ molarQ).to (resolveOutUnit "ki" outUnit?))
    else if finalObs = "ic50" then
      eBind (q10pow val.neg) fun r =>
        toRes ((r.mulQ molarQ).to (resolveOutUnit "ic50" outUnit?))
    else if finalObs = "pic50" then
      toRes (val.to (resolveOutUnit "pic50" outUnit?))
    else .raise .notImplementedError
  else
    -- No final `else`: Python falls off the end and returns `None`.
    .retNone

/-- `convertError(eVal, val, originalObs, finalObs, temperature, outUnit)`
from `PLBenchmarks/utils.py`: first-order propagated uncertainty for each
kind pair.  Branch structure, guard conditions and formulas follow the
source line by line; note that the `ki`/`ic50` to `pic50` guard tests
`val * np.log(10) < 1e-15 molar` (not `val < 1e-15 molar`). -/
def convertError (eVal val : Quantity) (originalObs finalObs : String)
    (temperature : ℝ) (outUnit? : Option PintUnit) : PyRes Quantity :=
  if originalObs = "dg" then
    if finalObs = "dg" then
      toRes (eVal.to (resolveOutUnit "dg" outUnit?))
    else if finalObs = "ki" then
      -- error = 1.0 / kBT * np.exp(-val / kBT) * eVal * ureg.molar
      eBind (qexp (val.neg.divQ (kBT temperature))) fun ex =>
        toRes (((((Quantity.fdiv 1 (kBT temperature)).mulQ ex).mulQ eVal).mulQ
          molarQ).to (resolveOutUnit "ki" outUnit?))
    else if finalObs = "ic50" then
      eBind (qexp (val.neg.divQ (kBT temperature))) fun ex =>
        toRes (((((Quantity.fdiv 1 (kBT temperature)).mulQ ex).mulQ eVal).mulQ
          molarQ).to (resolveOutUnit "ic50" outUnit?))
    else if finalObs = "pic50" then
      -- error = 1.0 / (kBT * np.log(10)) * eVal
      toRes (((Quantity.fdiv 1 ((kBT temperature).mulF (Real.log 10))).mulQ
        eVal).to (resolveOutUnit "pic50" outUnit?))
    else .raise .notImplementedError
  else if originalObs = "ki" then
    if finalObs = "dg" then
      if val.u.dim = dimConcentration then
        if val.mag < 1e-15 * molar.scale / val.u.scale then
          .ok ⟨0, resolveOutUnit "dg" outUnit?⟩
        else
          -- error = BOLTZMANN * temperature * ureg.kelvin / val * eVal
          toRes (mapRound ((((kBT temperature).divQ val).mulQ eVal).to
            (resolveOutUnit "dg" outUnit?)))
      else .raise .dimensionalityError
    else if finalObs = "ki" then
      toRes (eVal.to (resolveOutUnit "ki" outUnit?))
    else if finalObs = "ic50" then
      toRes (eVal.to (resolveOutUnit "ic50" outUnit?))
    else if finalObs = "pic50" then
      -- if (val * np.log(10)) < 1e-15 * ureg("molar"): return 1e15 * outUnit
      if val.u.dim = dimConcentration then
        if val.mag * Real.log 10 < 1e-15 * molar.scale / val.u.scale then
          .ok ⟨1e15, resolveOutUnit "pic50" outUnit?⟩
        else
          -- result = 1 / (val * np.log(10)) * eVal, then .to(outUnit).round(2)
          toRes (mapRound (((Quantity.fdiv 1 (val.mulF (Real.log 10))).mulQ
            eVal).to (resolveOutUnit "pic50" outUnit?)))
      else .raise .dimensionalityError
    else .raise .notImplementedError
  else if originalObs = "ic50" then
    if finalObs = "dg" then
      if val.u.dim = dimConcentration then
        if val.mag < 1e-15 * molar.scale / val.u.scale then
          .ok ⟨0, resolveOutUnit "dg" outUnit?⟩
        else
          toRes (mapRound ((((kBT temperature).divQ val).mulQ eVal).to
            (resolveOutUnit "dg" outUnit?)))
      else .raise .dimensionalityError
    else if finalObs = "ki" then
      toRes (eVal.to (resolveOutUnit "ki" outUnit?))
    else if finalObs = "ic50" then
      toRes (eVal.to (resolveOutUnit "ic50" outUnit?))
    else if finalObs = "pic50" then
      if val.u.dim = dimConcentration then
        if val.mag * Real.log 10 < 1e-15 * molar.scale / val.u.scale then
          .ok ⟨1e15, resolveOutUnit "pic50" outUnit?⟩
        else
          toRes (mapRound (((Quantity.fdiv 1 (val.mulF (Real.log 10))).mulQ
            eVal).to (resolveOutUnit "pic50" outUnit?)))
      else .raise .dimensionalityError
    else .raise .notImplementedError
  else if originalObs = "pic50" then
    if finalObs = "dg" then
      -- error = BOLTZMANN * temperature * ureg.kelvin * np.log(10) * eVal
      toRes (mapRound ((((kBT temperature).mulF (Real.log 10)).mulQ eVal).to
        (resolveOutUnit "dg" outUnit?)))
    else if finalObs = "ki" then
      -- error = np.log(10) * 10 ** (-val) * eVal * ureg("molar"), rounded
      eBind (q10pow val.neg) fun p =>
        toRes (mapRound ((((Quantity.fmul (Real.log 10) p).mulQ eVal).mulQ
          molarQ).to (resolveOutUnit "ki" outUnit?)))
    else if finalObs = "ic50" then
      eBind (q10pow val.neg) fun p =>
        toRes (mapRound ((((Quantity.fmul (Real.log 10) p).mulQ eVal).mulQ
          molarQ).to (resolveOutUnit "ic50" outUnit?)))
    else if finalObs = "pic50" then
      toRes (mapRound (eVal.to (resolveOutUnit "pic50" outUnit?)))
    else .raise .notImplementedError
  else
    .retNone

/-- Python `str.split()` with no argument: split on runs of whitespace,
dropping empty pieces. -/
def pyWords (s : String) : List String :=
  (s.split Char.isWhitespace).filter (fun w => w ≠ "")

/-- Outcome of the network request made by the resolver functions: either
the decoded response text, or a `urllib.error.URLError` carrying a message.
The request itself is I/O and enters the model as this parameter. -/
abbrev NetResult (α : Type) := Except String α

/-- `findPdbUrl(pdb)` from `PLBenchmarks/utils.py`, with the outcome of the
`urllib` request passed in as `net` (the decoded response page on success).
Returns the compiled string together with the list of warning messages
emitted via `warnings.warn`. -/
def findPdbUrl (pdb : Option String) (net : NetResult String) :
    String × List String :=
  match pdb with
  | none => ("", [])
  | some pdb =>
    match net with
    | .ok pageText =>
      let page := pyWords pageText
      let res := page.map (fun p =>
        "REP1http://www.rcsb.org/structure/" ++ p ++ "REP2" ++ p ++ "REP3")
      let warns := ((pyWords pdb).filter (fun p => ¬ p ∈ page)).map
        (fun p => "PDB " ++ p ++ " not found")
      (String.intercalate "\n" res, warns)
    | .error e =>
      (String.intercalate "\n" (pyWords pdb),
        ["Could not find PDB " ++ pdb ++ "\n" ++ e])

/-- The fields of the Crossref work object (`obj["message"]`) that
`findDoiUrl` reads.  A `none` field models the key being absent from the
JSON object (so that reading it raises `KeyError`); `publishedPrintYear`
models `obj["published-print"]["date-parts"][0][0]` when the
`published-print` key is present. -/
structure CrossrefWork where
  author : Option (List String)
  shortContainerTitle : Option (List String)
  publishedPrintYear : Option Int
  url : String

/-- Result of `findDoiUrl`: the returned string with the emitted warnings,
or an uncaught `KeyError` (only `urllib.error.URLError` is caught). -/
inductive DoiRes where
  | ok : String → List String → DoiRes
  | keyError : DoiRes
deriving DecidableEq

/-- The Python format string `"{} et al., {} {}".format(aut, tit, dat)`
used by `findDoiUrl` to assemble the citation label. -/
def doiDescString (aut tit dat : String) : String :=
  aut ++ " et al., " ++ tit ++ " " ++ dat

/-- `findDoiUrl(doi)` from `PLBenchmarks/utils.py`, with the outcome of the
`urllib` request passed in as `net` (the parsed work object on success; the
envelope unwrapping `obj = obj["message"]` for `status == "ok"` is part of
obtaining the `CrossrefWork`). -/
def findDoiUrl (doi : String) (net : NetResult CrossrefWork) : DoiRes :=
  match net with
  | .error e => .ok doi ["Could not find DOI: " ++ doi ++ "\n" ++ e]
  | .ok obj =>
    match obj.author with
    | none => .keyError
    | some auts =>
      let aut := if 0 < auts.length then auts.headD "" else ""
      match obj.shortContainerTitle with
      | none => .keyError
      | some tits =>
        let tit := if 0 < tits.length then tits.headD "" else ""
        let dat := match obj.publishedPrintYear with
          | some y => toString y
          | none => "XXXX"
        let desc := doiDescString aut tit dat
        .ok ("REP1" ++ obj.url ++ "REP2" ++ desc ++ "REP3") []

/-!
### Branch evaluation lemmas

One lemma per reachable branch of `convertValue` (and the branches of
`convertError` that the claims need), stating the returned quantity in
closed form under the hypotheses that make the branch execute without a
`pint` dimensionality error.
-/

/-- The `ki` to `dg` branch, non-degenerate case. -/
lemma convertValue_ki_dg_eval (val : Quantity) (T : ℝ) (u? : Option PintUnit)
    (hdim : val.u.dim = dimConcentration)
    (hscale : 0 < val.u.scale) (hge : 1e-12 ≤ val.mag * val.u.scale)
    (hru : (resolveOutUnit "dg" u?).dim = dimEnergyPerMole) :
    convertValue val "ki" "dg" T u? =
      PyRes.ok ⟨round2 (gasConstant * T * Real.log (val.mag * (val.u.scale / 1000)) /
        (resolveOutUnit "dg" u?).scale), resolveOutUnit "dg" u?⟩ := by
  have hlt : ¬ val.mag < 1e-15 * 1000 / val.u.scale := by
    rw [not_lt, div_le_iff₀ hscale]
    linarith
  simp [convertValue, hdim, hlt, hru, eBind, qlog, Quantity.divQ, molarQ, molar,
    kBT, BOLTZMANN, kelvinQ, kelvinUnit, joulesPerMolePerKelvin, Quantity.mulQ,
    Quantity.mulF, mapRound, toRes, Quantity.to, Quantity.round2Q, PintUnit.one,
    dimConcentration, dimKelvin, dimEnergyPerMolePerKelvin, dimEnergyPerMole,
    Prod.mk_add_mk, Prod.mk_sub_mk]

/-- The `ic50` to `dg` branch, non-degenerate case (same value as from
`ki`, via the intermediate `val.to("molar")`). -/
lemma convertValue_ic50_dg_eval (val : Quantity) (T : ℝ) (u? : Option PintUnit)
    (hdim : val.u.dim = dimConcentration)
    (hscale : 0 < val.u.scale) (hge : 1e-12 ≤ val.mag * val.u.scale)
    (hru : (resolveOutUnit "dg" u?).dim = dimEnergyPerMole) :
    convertValue val "ic50" "dg" T u? =
      PyRes.ok ⟨round2 (gasConstant * T * Real.log (val.mag * val.u.scale / 1000 *
        (1000 / 1000)) / (resolveOutUnit "dg" u?).scale),
        resolveOutUnit "dg" u?⟩ := by
  have hlt : ¬ val.mag < 1e-15 * 1000 / val.u.scale := by
    rw [not_lt, div_le_iff₀ hscale]
    linarith
  simp [convertValue, hdim, hlt, hru, eBind, qlog, Quantity.divQ, molarQ, molar,
    kBT, BOLTZMANN, kelvinQ, kelvinUnit, joulesPerMolePerKelvin, Quantity.mulQ,
    Quantity.mulF, mapRound, toRes, Quantity.to, Quantity.round2Q, PintUnit.one,
    dimConcentration, dimKelvin, dimEnergyPerMolePerKelvin, dimEnergyPerMole,
    Prod.mk_add_mk, Prod.mk_sub_mk]

/-- The `dg` to `ki` branch. -/
lemma convertValue_dg_ki_eval (val : Quantity) (T : ℝ) (u? : Option PintUnit)
    (hdim : val.u.dim = dimEnergyPerMole)
    (hru : (resolveOutUnit "ki" u?).dim = dimConcentration) :
    convertValue val "dg" "ki" T u? =
      PyRes.ok ⟨Real.exp (-val.mag / (gasConstant * T) * val.u.scale) * 1000 /
        (resolveOutUnit "ki" u?).scale, resolveOutUnit "ki" u?⟩ := by
  simp [convertValue, hdim, hru, eBind, qexp, Quantity.divQ, Quantity.neg, molarQ,
    molar, kBT, BOLTZMANN, kelvinQ, kelvinUnit, joulesPerMolePerKelvin,
    Quantity.mulQ, Quantity.mulF, toRes, Quantity.to, PintUnit.one,
    dimConcentration, dimKelvin, dimEnergyPerMolePerKelvin, dimEnergyPerMole,
    Prod.mk_add_mk, Prod.mk_sub_mk]

/-- The `dg` to `pic50` branch. -/
lemma convertValue_dg_pic50_eval (val : Quantity) (T : ℝ) (u? : Option PintUnit)
    (hdim : val.u.dim = dimEnergyPerMole)
    (hru : (resolveOutUnit "pic50" u?).dim = 0) :
    convertValue val "dg" "pic50" T u? =
      PyRes.ok ⟨val.mag / (gasConstant * T) / Real.log 10 * val.u.scale /
        (resolveOutUnit "pic50" u?).scale, resolveOutUnit "pic50" u?⟩ := by
  simp [convertValue, hdim, hru, eBind, qexp, Quantity.divQ, Quantity.divF,
    Quantity.neg, molarQ, molar, kBT, BOLTZMANN, kelvinQ, kelvinUnit,
    joulesPerMolePerKelvin, Quantity.mulQ, Quantity.mulF, toRes, Quantity.to,
    PintUnit.one, dimConcentration, dimKelvin, dimEnergyPerMolePerKelvin,
    dimEnergyPerMole, Prod.mk_add_mk, Prod.mk_sub_mk]

/-- The `pic50` to `dg` branch. -/
lemma convertValue_pic50_dg_eval (val : Quantity) (T : ℝ) (u? : Option PintUnit)
    (hdim : val.u.dim = 0)
    (hru : (resolveOutUnit "dg" u?).dim = dimEnergyPerMole) :
    convertValue val "pic50" "dg" T u? =
      PyRes.ok ⟨round2 (-(gasConstant * T * val.mag * Real.log 10 * val.u.scale) /
        (resolveOutUnit "dg" u?).scale), resolveOutUnit "dg" u?⟩ := by
  simp [convertValue, hdim, hru, eBind, Quantity.neg, molarQ, molar, kBT,
    BOLTZMANN, kelvinQ, kelvinUnit, joulesPerMolePerKelvin, Quantity.mulQ,
    Quantity.mulF, mapRound, toRes, Quantity.to, Quantity.round2Q, PintUnit.one,
    dimConcentration, dimKelvin, dimEnergyPerMolePerKelvin, dimEnergyPerMole,
    Prod.mk_add_mk, Prod.mk_sub_mk]

/-- The `ki` to `pic50` branch, non-degenerate case: the result is returned
directly, in the plain dimensionless unit, with no conversion to the
requested output unit. -/
lemma convertValue_ki_pic50_eval (val : Quantity) (T : ℝ) (u? : Option PintUnit)
    (hdim : val.u.dim = dimConcentration)
    (hscale : 0 < val.u.scale) (hge : 1e-12 ≤ val.mag * val.u.scale) :
    convertValue val "ki" "pic50" T u? =
      PyRes.ok ⟨-Real.log (val.mag * (val.u.scale / 1000)) / Real.log 10,
        ⟨0, 1⟩⟩ := by
  have hlt : ¬ val.mag < 1e-15 * 1000 / val.u.scale := by
    rw [not_lt, div_le_iff₀ hscale]
    linarith
  simp [convertValue, hdim, hlt, eBind, qlog, Quantity.divQ, Quantity.divF,
    Quantity.neg, molarQ, molar, toRes, Quantity.to, PintUnit.one,
    dimConcentration, Prod.mk_sub_mk]

/-- The `pic50` to `ki` branch. -/
lemma convertValue_pic50_ki_eval (val : Quantity) (T : ℝ) (u? : Option PintUnit)
    (hdim : val.u.dim = 0)
    (hru : (resolveOutUnit "ki" u?).dim = dimConcentration) :
    convertValue val "pic50" "ki" T u? =
      PyRes.ok ⟨(10 : ℝ) ^ (-(val.mag * val.u.scale)) * 1000 /
        (resolveOutUnit "ki" u?).scale, resolveOutUnit "ki" u?⟩ := by
  simp [convertValue, hdim, hru, eBind, q10pow, Quantity.neg, molarQ, molar,
    Quantity.mulQ, toRes, Quantity.to, PintUnit.one, dimConcentration,
    Prod.mk_add_mk]

/-- The `pic50` to `ic50` branch (same formula as `pic50` to `ki`). -/
lemma convertValue_pic50_ic50_eval (val : Quantity) (T : ℝ) (u? : Option PintUnit)
    (hdim : val.u.dim = 0)
    (hru : (resolveOutUnit "ic50" u?).dim = dimConcentration) :
    convertValue val "pic50" "ic50" T u? =
      PyRes.ok ⟨(10 : ℝ) ^ (-(val.mag * val.u.scale)) * 1000 /
        (resolveOutUnit "ic50" u?).scale, resolveOutUnit "ic50" u?⟩ := by
  simp [convertValue, hdim, hru, eBind, q10pow, Quantity.neg, molarQ, molar,
    Quantity.mulQ, toRes, Quantity.to, PintUnit.one, dimConcentration,
    Prod.mk_add_mk]

/-- The `ic50` to `pic50` branch, non-degenerate case: like `ki` to
`pic50`, the result is returned directly, ignoring the output unit. -/
lemma convertValue_ic50_pic50_eval (val : Quantity) (T : ℝ) (u? : Option PintUnit)
    (hdim : val.u.dim = dimConcentration)
    (hscale : 0 < val.u.scale) (hge : 1e-12 ≤ val.mag * val.u.scale) :
    convertValue val "ic50" "pic50" T u? =
      PyRes.ok ⟨-Real.log (val.mag * (val.u.scale / 1000)) / Real.log 10,
        ⟨0, 1⟩⟩ := by
  have hlt : ¬ val.mag * val.u.scale / 1000 < 1e-15 := by
    rw [not_lt, le_div_iff₀ (by norm_num : (0:ℝ) < 1000)]
    linarith
  simp [convertValue, hdim, hlt, eBind, qlog, Quantity.divQ, Quantity.divF,
    Quantity.neg, molarQ, molar, toRes, Quantity.to, PintUnit.one,
    dimConcentration, Prod.mk_sub_mk]

/-- The `ki` to `dg` branch, degenerate case: any concentration below
1e-15 molar maps to exactly 0 in the output unit. -/
lemma convertValue_ki_dg_degenerate (val : Quantity) (T : ℝ) (u? : Option PintUnit)
    (hdim : val.u.dim = dimConcentration)
    (hscale : 0 < val.u.scale) (hsmall : val.mag * val.u.scale < 1e-12) :
    convertValue val "ki" "dg" T u? =
      PyRes.ok ⟨0, resolveOutUnit "dg" u?⟩ := by
  have h : val.mag < 1e-15 * 1000 / val.u.scale := by
    rw [lt_div_iff₀ hscale]
    linarith
  simp [convertValue, hdim, h, molar]

/-- The `ic50` to `dg` branch, degenerate case. -/
lemma convertValue_ic50_dg_degenerate (val : Quantity) (T : ℝ) (u? : Option PintUnit)
    (hdim : val.u.dim = dimConcentration)
    (hscale : 0 < val.u.scale) (hsmall : val.mag * val.u.scale < 1e-12) :
    convertValue val "ic50" "dg" T u? =
      PyRes.ok ⟨0, resolveOutUnit "dg" u?⟩ := by
  have h : val.mag < 1e-15 * 1000 / val.u.scale := by
    rw [lt_div_iff₀ hscale]
    linarith
  simp [convertValue, hdim, h, molar]

/-- The `ki` to `pic50` branch, degenerate case: the saturating value
-1e15 attached to the output unit. -/
lemma convertValue_ki_pic50_degenerate (val : Quantity) (T : ℝ)
    (u? : Option PintUnit) (hdim : val.u.dim = dimConcentration)
    (hscale : 0 < val.u.scale) (hsmall : val.mag * val.u.scale < 1e-12) :
    convertValue val "ki" "pic50" T u? =
      PyRes.ok ⟨-1e15, resolveOutUnit "pic50" u?⟩ := by
  have h : val.mag < 1e-15 * 1000 / val.u.scale := by
    rw [lt_div_iff₀ hscale]
    linarith
  simp [convertValue, hdim, h, molar]

/-- The `ic50` to `pic50` branch, degenerate case. -/
lemma convertValue_ic50_pic50_degenerate (val : Quantity) (T : ℝ)
    (u? : Option PintUnit) (hdim : val.u.dim = dimConcentration)
    (hscale : 0 < val.u.scale) (hsmall : val.mag * val.u.scale < 1e-12) :
    convertValue val "ic50" "pic50" T u? =
      PyRes.ok ⟨-1e15, resolveOutUnit "pic50" u?⟩ := by
  have h : val.mag * val.u.scale / 1000 < 1e-15 := by
    rw [div_lt_iff₀ (by norm_num : (0:ℝ) < 1000)]
    linarith
  simp [convertValue, hdim, h, molar]

/-- The `dg` to `ic50` branch (same formula as `dg` to `ki`). -/
lemma convertValue_dg_ic50_eval (val : Quantity) (T : ℝ) (u? : Option PintUnit)
    (hdim : val.u.dim = dimEnergyPerMole)
    (hru : (resolveOutUnit "ic50" u?).dim = dimConcentration) :
    convertValue val "dg" "ic50" T u? =
      PyRes.ok ⟨Real.exp (-val.mag / (gasConstant * T) * val.u.scale) * 1000 /
        (resolveOutUnit "ic50" u?).scale, resolveOutUnit "ic50" u?⟩ := by
  simp [convertValue, hdim, hru, eBind, qexp, Quantity.divQ, Quantity.neg, molarQ,
    molar, kBT, BOLTZMANN, kelvinQ, kelvinUnit, joulesPerMolePerKelvin,
    Quantity.mulQ, Quantity.mulF, toRes, Quantity.to, PintUnit.one,
    dimConcentration, dimKelvin, dimEnergyPerMolePerKelvin, dimEnergyPerMole,
    Prod.mk_add_mk, Prod.mk_sub_mk]

/-- Evaluate `round2` away from a tie: if `100 * x` lies strictly between
`n - 1/2` and `n + 1/2` then `round2 x = n / 100`. -/
lemma round2_eval {x : ℝ} {n : ℤ} (h1 : (n : ℝ) - 1 / 2 < 100 * x)
    (h2 : 100 * x < (n : ℝ) + 1 / 2) : round2 x = (n : ℝ) / 100 := by
  have hfr : ¬ Int.fract (100 * x) = 1 / 2 := by
    intro h
    have hf : (⌊100 * x⌋ : ℝ) = 100 * x - 1 / 2 := by
      have := Int.fract_add_floor (100 * x)
      linarith
    have hlo : (n : ℝ) - 1 < (⌊100 * x⌋ : ℝ) := by linarith
    have hhi : (⌊100 * x⌋ : ℝ) < (n : ℝ) := by linarith
    have hlo' : n - 1 < ⌊100 * x⌋ := by exact_mod_cast hlo
    have hhi' : ⌊100 * x⌋ < n := by exact_mod_cast hhi
    omega
  have hround : round (100 * x) = n := by
    rw [round_eq, Int.floor_eq_iff]
    constructor <;> linarith
  rw [round2, roundHalfEven, if_neg hfr, hround]

/-- The logarithm of 10 is positive. -/
lemma log10_pos : (0:ℝ) < Real.log 10 := Real.log_pos (by norm_num)

/-- Following the words of the spec for C1, not the code: the claimed
forward conversion dG = -R*T*ln(val / 1 molar), expressed in kcal/mol
(the default target unit) and rounded to 2 decimal places. -/
def specC1ForwardDg (val : Quantity) (T : ℝ) : ℝ :=
  round2 (-(gasConstant * T * Real.log (val.mag * val.u.scale / 1000)) / 4184)

/-- C1 counterexample: at Ki = exp(-1) molar and T = 300 K the code
returns -0.60 kcal/mol (it computes dG = +R*T*ln(val/1M)), while the
claimed formula dG = -R*T*ln(val/1M) gives +0.60 kcal/mol. -/
theorem claimC1_counterexample :
    convertValue ⟨Real.exp (-1), molar⟩ "ki" "dg" 300 none =
      PyRes.ok ⟨-0.6, kilocaloriesPerMole⟩ ∧
    specC1ForwardDg ⟨Real.exp (-1), molar⟩ 300 = 0.6 ∧
    (-0.6 : ℝ) ≠ 0.6 := by
  have hexp3 : Real.exp 1 < 3 := lt_trans Real.exp_one_lt_d9 (by norm_num)
  have hp : (0 : ℝ) < Real.exp 1 := Real.exp_pos 1
  have hinv : Real.exp (-1) * Real.exp 1 = 1 := by
    rw [← Real.exp_add]
    norm_num
  have hge : (1e-12 : ℝ) ≤ Real.exp (-1) * (1000 : ℝ) := by
    nlinarith [Real.exp_pos (-1)]
  refine ⟨?_, ?_, by norm_num⟩
  · rw [convertValue_ki_dg_eval ⟨Real.exp (-1), molar⟩ 300 none rfl
      (by norm_num [molar]) (by simpa [molar] using hge)
      (by simp [resolveOutUnit, defaultUnit, kilocaloriesPerMole])]
    have hres : resolveOutUnit "dg" none = kilocaloriesPerMole := by
      simp [resolveOutUnit, defaultUnit]
    rw [hres]
    have harg : Real.log ((⟨Real.exp (-1), molar⟩ : Quantity).mag *
        ((⟨Real.exp (-1), molar⟩ : Quantity).u.scale / 1000)) = -1 := by
      show Real.log (Real.exp (-1) * (molar.scale / 1000)) = -1
      norm_num [molar, Real.log_exp]
    rw [harg]
    have : round2 (gasConstant * 300 * (-1) / kilocaloriesPerMole.scale) =
        ((-60 : ℤ) : ℝ) / 100 := by
      apply round2_eval <;> norm_num [gasConstant, kilocaloriesPerMole]
    rw [this]
    norm_num
  · show round2 (-(gasConstant * 300 *
      Real.log (Real.exp (-1) * molar.scale / 1000)) / 4184) = 0.6
    have harg : Real.log (Real.exp (-1) * molar.scale / 1000) = -1 := by
      norm_num [molar, Real.log_exp]
    rw [harg]
    have : round2 (-(gasConstant * 300 * (-1)) / 4184) = ((60 : ℤ) : ℝ) / 100 := by
      apply round2_eval <;> norm_num [gasConstant]
    rw [this]
    norm_num

/-- C1 amended: the concentration-to-energy direction implements
dG = +R*T*ln(K/1M) (rounded to 2 decimals in the target unit), while the
energy-to-concentration direction implements K = exp(-dG/(R*T)) molar: the
two directions use opposite sign conventions for dG = -RT ln K. -/
theorem claimC1_conversion_formulas (obs : String) (val dgval : Quantity)
    (T : ℝ) (u? v? : Option PintUnit) (hobs : obs = "ki" ∨ obs = "ic50")
    (hT : 0 < T) (hdim : val.u.dim = dimConcentration)
    (hscale : 0 < val.u.scale) (hge : 1e-12 ≤ val.mag * val.u.scale)
    (hru : (resolveOutUnit "dg" u?).dim = dimEnergyPerMole)
    (hdgdim : dgval.u.dim = dimEnergyPerMole)
    (hrv : (resolveOutUnit obs v?).dim = dimConcentration) :
    convertValue val obs "dg" T u? =
      PyRes.ok ⟨round2 (gasConstant * T * Real.log (val.mag * val.u.scale / 1000) /
        (resolveOutUnit "dg" u?).scale), resolveOutUnit "dg" u?⟩ ∧
    convertValue dgval "dg" obs T v? =
      PyRes.ok ⟨Real.exp (-(dgval.mag * dgval.u.scale) / (gasConstant * T)) *
        1000 / (resolveOutUnit obs v?).scale, resolveOutUnit obs v?⟩ := by
  have hexparg : -dgval.mag / (gasConstant * T) * dgval.u.scale =
      -(dgval.mag * dgval.u.scale) / (gasConstant * T) := by ring
  have harg : val.mag * (val.u.scale / 1000) = val.mag * val.u.scale / 1000 :=
    (mul_div_assoc val.mag val.u.scale 1000).symm
  rcases hobs with h | h <;> subst h
  · constructor
    · rw [convertValue_ki_dg_eval val T u? hdim hscale hge hru, harg]
    · rw [convertValue_dg_ki_eval dgval T v? hdgdim hrv, hexparg]
  · constructor
    · rw [convertValue_ic50_dg_eval val T u? hdim hscale hge hru]
      have : val.mag * val.u.scale / 1000 * ((1000 : ℝ) / 1000) =
          val.mag * val.u.scale / 1000 := by norm_num
      rw [this]
    · rw [convertValue_dg_ic50_eval dgval T v? hdgdim hrv, hexparg]

/-- Witness for C1 amended: Ki = 1 molar, dG = 1 kcal/mol, T = 300 K,
default output units. -/
theorem claimC1_conversion_formulas_witness :
    convertValue ⟨1, molar⟩ "ki" "dg" 300 none =
      PyRes.ok ⟨round2 (gasConstant * 300 * Real.log (1 * molar.scale / 1000) /
        (resolveOutUnit "dg" none).scale), resolveOutUnit "dg" none⟩ ∧
    convertValue ⟨1, kilocaloriesPerMole⟩ "dg" "ki" 300 none =
      PyRes.ok ⟨Real.exp (-(1 * kilocaloriesPerMole.scale) / (gasConstant * 300)) *
        1000 / (resolveOutUnit "ki" none).scale, resolveOutUnit "ki" none⟩ :=
  claimC1_conversion_formulas "ki" ⟨1, molar⟩ ⟨1, kilocaloriesPerMole⟩ 300
    none none (Or.inl rfl) (by norm_num) rfl (by norm_num [molar])
    (by norm_num [molar]) (by simp [resolveOutUnit, defaultUnit, kilocaloriesPerMole])
    rfl (by simp [resolveOutUnit, defaultUnit, nanomolar])

/-- C3: for every concentration quantity strictly below 1e-15 molar (in
base units, magnitude times scale below 1e-12 mol/m^3) and every
temperature and output unit, converting `ki` or `ic50` to `dg` returns
exactly 0 in the target unit, and converting to `pic50` returns exactly
-1e15 in the target unit. -/
theorem claimC3_degenerate_boundary (obs : String) (val : Quantity) (T : ℝ)
    (u? : Option PintUnit) (hobs : obs = "ki" ∨ obs = "ic50")
    (hdim : val.u.dim = dimConcentration) (hscale : 0 < val.u.scale)
    (hsmall : val.mag * val.u.scale < 1e-12) :
    convertValue val obs "dg" T u? = PyRes.ok ⟨0, resolveOutUnit "dg" u?⟩ ∧
      convertValue val obs "pic50" T u? =
        PyRes.ok ⟨-1e15, resolveOutUnit "pic50" u?⟩ := by
  rcases hobs with h | h <;> subst h
  · exact ⟨convertValue_ki_dg_degenerate val T u? hdim hscale hsmall,
      convertValue_ki_pic50_degenerate val T u? hdim hscale hsmall⟩
  · exact ⟨convertValue_ic50_dg_degenerate val T u? hdim hscale hsmall,
      convertValue_ic50_pic50_degenerate val T u? hdim hscale hsmall⟩

/-- Witness for C3 at 1e-16 molar (= 1e-13 mol/m^3), temperature 300,
default output units. -/
theorem claimC3_degenerate_boundary_witness :
    convertValue ⟨1e-16, molar⟩ "ki" "dg" 300 none =
      PyRes.ok ⟨0, resolveOutUnit "dg" none⟩ ∧
    convertValue ⟨1e-16, molar⟩ "ki" "pic50" 300 none =
      PyRes.ok ⟨-1e15, resolveOutUnit "pic50" none⟩ :=
  claimC3_degenerate_boundary "ki" ⟨1e-16, molar⟩ 300 none (Or.inl rfl) rfl
    (by norm_num [molar]) (by norm_num [molar])

/-- C7: for each of the four observable kinds, converting a quantity to
the same kind is the identity up to unit re-expression: the result carries
the requested (or default) output unit, and its magnitude re-expressed in
the original scale is unchanged (equal base value). -/
theorem claimC7_identity_conversion (k : String) (val : Quantity) (T : ℝ)
    (u? : Option PintUnit)
    (hk : k = "dg" ∨ k = "ki" ∨ k = "ic50" ∨ k = "pic50")
    (hdim : val.u.dim = (resolveOutUnit k u?).dim)
    (hscale : (resolveOutUnit k u?).scale ≠ 0) :
    convertValue val k k T u? =
      PyRes.ok ⟨val.mag * val.u.scale / (resolveOutUnit k u?).scale,
        resolveOutUnit k u?⟩ ∧
    val.mag * val.u.scale / (resolveOutUnit k u?).scale *
      (resolveOutUnit k u?).scale = val.mag * val.u.scale := by
  refine ⟨?_, div_mul_cancel₀ _ hscale⟩
  rcases hk with h | h | h | h <;> subst h <;>
    simp [convertValue, toRes, Quantity.to, hdim]

/-- Witness for C7: a `ki` value of 2 molar re-expressed in the default
output unit (nanomolar); the base value 2000 mol/m^3 is preserved. -/
theorem claimC7_identity_conversion_witness :
    convertValue ⟨2, molar⟩ "ki" "ki" 300 none =
      PyRes.ok ⟨2 * molar.scale / (resolveOutUnit "ki" none).scale,
        resolveOutUnit "ki" none⟩ ∧
    2 * molar.scale / (resolveOutUnit "ki" none).scale *
      (resolveOutUnit "ki" none).scale = 2 * molar.scale :=
  claimC7_identity_conversion "ki" ⟨2, molar⟩ 300 none (Or.inr (Or.inl rfl))
    (by simp [resolveOutUnit, defaultUnit, nanomolar, molar])
    (by simp [resolveOutUnit, defaultUnit, nanomolar] <;> norm_num)

/-- C10: converting `ki` or `ic50` to `pic50` at or above the degeneracy
threshold returns the computed dimensionless result in the plain
dimensionless unit, identical to what the default-unit call returns: an
explicitly requested output unit is silently ignored on this path.  By
contrast, the neighbouring `ki`-to-`ki` branch converts its result to the
requested unit. -/
theorem claimC10_pic50_ignores_outUnit (obs : String) (val : Quantity) (T : ℝ)
    (u : PintUnit) (hobs : obs = "ki" ∨ obs = "ic50")
    (hdim : val.u.dim = dimConcentration) (hscale : 0 < val.u.scale)
    (hge : 1e-12 ≤ val.mag * val.u.scale) :
    convertValue val obs "pic50" T (some u) =
      PyRes.ok ⟨-Real.log (val.mag * (val.u.scale / 1000)) / Real.log 10,
        ⟨0, 1⟩⟩ ∧
    convertValue val obs "pic50" T (some u) =
      convertValue val obs "pic50" T none ∧
    (u.dim = dimConcentration →
      convertValue val obs "ki" T (some u) =
        PyRes.ok ⟨val.mag * val.u.scale / u.scale, u⟩) := by
  rcases hobs with h | h <;> subst h
  · refine ⟨convertValue_ki_pic50_eval val T (some u) hdim hscale hge, ?_, ?_⟩
    · rw [convertValue_ki_pic50_eval val T (some u) hdim hscale hge,
        convertValue_ki_pic50_eval val T none hdim hscale hge]
    · intro hu
      simp [convertValue, toRes, Quantity.to, hdim, hu, resolveOutUnit]
  · refine ⟨convertValue_ic50_pic50_eval val T (some u) hdim hscale hge, ?_, ?_⟩
    · rw [convertValue_ic50_pic50_eval val T (some u) hdim hscale hge,
        convertValue_ic50_pic50_eval val T none hdim hscale hge]
    · intro hu
      simp [convertValue, toRes, Quantity.to, hdim, hu, resolveOutUnit]

/-- Witness for C10 at 1 molar with requested output unit `molar` itself:
the `pic50` result still comes back in the plain dimensionless unit. -/
theorem claimC10_pic50_ignores_outUnit_witness :
    convertValue ⟨1, molar⟩ "ki" "pic50" 300 (some molar) =
      PyRes.ok ⟨-Real.log (1 * (molar.scale / 1000)) / Real.log 10, ⟨0, 1⟩⟩ ∧
    convertValue ⟨1, molar⟩ "ki" "pic50" 300 (some molar) =
      convertValue ⟨1, molar⟩ "ki" "pic50" 300 none ∧
    (molar.dim = dimConcentration →
      convertValue ⟨1, molar⟩ "ki" "ki" 300 (some molar) =
        PyRes.ok ⟨1 * molar.scale / molar.scale, molar⟩) :=
  claimC10_pic50_ignores_outUnit "ki" ⟨1, molar⟩ 300 molar (Or.inl rfl) rfl
    (by norm_num [molar]) (by norm_num [molar])

/-- C9: on a network failure, `findPdbUrl` returns the newline-joined raw
identifiers obtained by splitting its input, with a non-fatal warning, and
`findDoiUrl` returns the raw identifier string it was given, with a
non-fatal warning; neither propagates the failure. -/
theorem claimC9_network_fallback :
    (∀ pdb e : String, findPdbUrl (some pdb) (Except.error e) =
      (String.intercalate "\n" (pyWords pdb),
        ["Could not find PDB " ++ pdb ++ "\n" ++ e])) ∧
    (∀ doi e : String, findDoiUrl doi (Except.error e) =
      DoiRes.ok doi ["Could not find DOI: " ++ doi ++ "\n" ++ e]) :=
  ⟨fun _ _ => rfl, fun _ _ => rfl⟩

/-- A real number exactly representable with 2 decimal places. -/
def isTwoDecimal (x : ℝ) : Prop := ∃ n : ℤ, x = (n : ℝ) / 100

/-- The result of `round2` is always a 2-decimal value. -/
lemma isTwoDecimal_round2 (x : ℝ) : isTwoDecimal (round2 x) :=
  ⟨roundHalfEven (100 * x), rfl⟩

/-- Zero is a 2-decimal value. -/
lemma isTwoDecimal_zero : isTwoDecimal (0 : ℝ) := ⟨0, by norm_num⟩

/-- 1.234 is not expressible with 2 decimal places. -/
lemma not_isTwoDecimal_1234 : ¬ isTwoDecimal (1.234 : ℝ) := by
  rintro ⟨n, hn⟩
  have h1 : (123 : ℝ) < (n : ℝ) := by linarith
  have h2 : (n : ℝ) < 124 := by linarith
  have h1' : (123 : ℤ) < n := by exact_mod_cast h1
  have h2' : n < 124 := by exact_mod_cast h2
  omega

/-- The natural logarithm of 10 lies strictly between 2 and 3. -/
lemma log10_bounds : (2:ℝ) < Real.log 10 ∧ Real.log 10 < 3 := by
  constructor
  · rw [show (2:ℝ) = Real.log (Real.exp 2) from (Real.log_exp 2).symm]
    apply Real.log_lt_log (Real.exp_pos 2)
    calc Real.exp 2 = Real.exp 1 * Real.exp 1 := by rw [← Real.exp_add]; norm_num
    _ < 10 := by nlinarith [Real.exp_one_lt_d9, Real.exp_pos 1]
  · rw [show (3:ℝ) = Real.log (Real.exp 3) from (Real.log_exp 3).symm]
    apply Real.log_lt_log (by norm_num)
    have h1 : (2.7:ℝ) < Real.exp 1 := by nlinarith [Real.exp_one_gt_d9]
    have h2 : (2.7:ℝ) * 2.7 < Real.exp 1 * Real.exp 1 := by nlinarith
    have h3 : Real.exp 3 = Real.exp 1 * Real.exp 1 * Real.exp 1 := by
      rw [← Real.exp_add, ← Real.exp_add]
      norm_num
    rw [h3]
    nlinarith [Real.exp_pos 1]

/-- C4 counterexample: at val = 5e-16 molar (strictly below 1e-15 molar)
and eVal = 0 molar, the `ki` to `pic50` error conversion does not return
the saturating value 1e15: the code's guard tests
`val * ln(10) < 1e-15 molar`, which fails here since ln(10) > 2, so the
derivative formula is evaluated and 0 is returned. -/
theorem claimC4_counterexample :
    convertError ⟨0, molar⟩ ⟨5e-16, molar⟩ "ki" "pic50" 300 none =
      PyRes.ok ⟨0, PintUnit.one⟩ ∧
    (5e-16 : ℝ) * molar.scale < 1e-12 ∧
    PyRes.ok (⟨0, PintUnit.one⟩ : Quantity) ≠
      PyRes.ok (⟨1e15, PintUnit.one⟩ : Quantity) := by
  refine ⟨?_, by norm_num [molar], ?_⟩
  · have hguard : ¬ ((5e-16:ℝ) * Real.log 10 < 1e-15) := by
      rw [not_lt]
      nlinarith [log10_bounds.1]
    have h0 : round2 (0:ℝ) = ((0:ℤ):ℝ) / 100 := by
      apply round2_eval <;> norm_num
    simp [convertError, hguard, molar, mapRound, toRes, Quantity.to,
      Quantity.fdiv, Quantity.mulQ, Quantity.mulF, Quantity.round2Q,
      resolveOutUnit, defaultUnit, PintUnit.one, dimConcentration,
      Prod.mk_add_mk, h0]
  · simp only [ne_eq, PyRes.ok.injEq, Quantity.mk.injEq, and_true]
    norm_num

/-- C4 amended: the degeneracy guard of the `ki`/`ic50` to `pic50` error
conversion is `val * ln(10) < 1e-15 molar` (not `val < 1e-15 molar` as in
the other three boundary checks); whenever that guard holds the function
returns the saturating value +1e15 in the target unit without evaluating
the derivative formula. -/
theorem claimC4_error_boundary (obs : String) (eVal val : Quantity) (T : ℝ)
    (u? : Option PintUnit) (hobs : obs = "ki" ∨ obs = "ic50")
    (hdim : val.u.dim = dimConcentration) (hscale : 0 < val.u.scale)
    (hsmall : val.mag * val.u.scale * Real.log 10 < 1e-12) :
    convertError eVal val obs "pic50" T u? =
      PyRes.ok ⟨1e15, resolveOutUnit "pic50" u?⟩ := by
  have hguard : val.mag * Real.log 10 < 1e-15 * 1000 / val.u.scale := by
    rw [lt_div_iff₀ hscale]
    nlinarith
  rcases hobs with h | h <;> subst h <;>
    simp [convertError, hdim, hguard, molar]

/-- Witness for C4 amended at val = 1e-16 molar, eVal = 0 molar: the base
value times ln(10) is about 2.3e-13 < 1e-12. -/
theorem claimC4_error_boundary_witness :
    convertError ⟨0, molar⟩ ⟨1e-16, molar⟩ "ki" "pic50" 300 none =
      PyRes.ok ⟨1e15, resolveOutUnit "pic50" none⟩ :=
  claimC4_error_boundary "ki" ⟨0, molar⟩ ⟨1e-16, molar⟩ 300 none (Or.inl rfl)
    rfl (by norm_num [molar])
    (by show (1e-16:ℝ) * molar.scale * Real.log 10 < 1e-12
        rw [molar]
        show (1e-16:ℝ) * 1000 * Real.log 10 < 1e-12
        nlinarith [log10_bounds.2])

/-- C8 counterexample: when the publication year is absent from the
response, the assembled citation label substitutes the string XXXX for
the year field, not an empty value. -/
theorem claimC8_counterexample :
    findDoiUrl "10.1021/doi" (Except.ok ⟨some ["Smith"], some ["JACS"], none,
      "theurl"⟩) =
      DoiRes.ok "REP1theurlREP2Smith et al., JACS XXXXREP3" [] ∧
    "REP1theurlREP2Smith et al., JACS XXXXREP3" ≠
      "REP1theurlREP2Smith et al., JACS REP3" := by
  constructor
  · rfl
  · decide

/-- C8 amended: the citation label is assembled as
first-author-family-name, " et al., ", short container title, " ", and
the publication year; an empty author list or empty title list
contributes an empty string, but an absent publication date contributes
the placeholder XXXX, and an absent author or short-container-title key
makes the function fail with an uncaught KeyError rather than return a
label. -/
theorem claimC8_label_assembly (doi url : String) (auts tits : List String)
    (y? : Option Int) :
    findDoiUrl doi (Except.ok ⟨some auts, some tits, y?, url⟩) =
      DoiRes.ok ("REP1" ++ url ++ "REP2" ++
        doiDescString (auts.headD "") (tits.headD "")
          (match y? with | some y => toString y | none => "XXXX") ++
        "REP3") [] ∧
    findDoiUrl doi (Except.ok ⟨none, some tits, y?, url⟩) = DoiRes.keyError ∧
    findDoiUrl doi (Except.ok ⟨some auts, none, y?, url⟩) = DoiRes.keyError := by
  refine ⟨?_, rfl, ?_⟩
  · cases auts <;> cases tits <;> simp [findDoiUrl]
  · cases auts <;> simp [findDoiUrl]

/-- C5 counterexample: the `dg` to `dg` conversion returns its input
re-expressed in the output unit without rounding: 1.234 kcal/mol comes
back as 1.234 kcal/mol, which is not a 2-decimal value, although the
target kind is `dg`. -/
theorem claimC5_counterexample :
    convertValue ⟨1.234, kilocaloriesPerMole⟩ "dg" "dg" 300 none =
      PyRes.ok ⟨1.234, kilocaloriesPerMole⟩ ∧ ¬ isTwoDecimal (1.234 : ℝ) := by
  refine ⟨?_, not_isTwoDecimal_1234⟩
  simp [convertValue, toRes, Quantity.to, resolveOutUnit, defaultUnit,
    kilocaloriesPerMole]

/-- C5 amended: in `convertValue`, every non-identity conversion into `dg`
(from `ki`, `ic50` or `pic50`) returns a 2-decimal value (rounded, or the
exact degenerate 0), while the `dg` to `dg` identity is returned
unrounded; every `convertValue` output of kind `ki`/`ic50`/`pic50` equals
its exact unrounded closed form (each such branch is characterised below
with no rounding applied, and a concrete `pic50` output retains 3 decimal
places); but `convertError` does round some non-`dg` outputs, e.g. its
`pic50` to `ki` branch. -/
theorem claimC5_rounding :
    (∀ obs, (obs = "ki" ∨ obs = "ic50") → ∀ (val : Quantity) (T : ℝ)
      (u? : Option PintUnit), val.u.dim = dimConcentration →
      0 < val.u.scale → (resolveOutUnit "dg" u?).dim = dimEnergyPerMole →
      ∃ r, convertValue val obs "dg" T u? = PyRes.ok r ∧ isTwoDecimal r.mag) ∧
    (∀ (val : Quantity) (T : ℝ) (u? : Option PintUnit), val.u.dim = 0 →
      (resolveOutUnit "dg" u?).dim = dimEnergyPerMole →
      ∃ r, convertValue val "pic50" "dg" T u? = PyRes.ok r ∧
        isTwoDecimal r.mag) ∧
    (∀ obs, (obs = "ki" ∨ obs = "ic50") → ∀ (val : Quantity) (T : ℝ)
      (u? : Option PintUnit), val.u.dim = dimConcentration →
      0 < val.u.scale → 1e-12 ≤ val.mag * val.u.scale →
      convertValue val obs "pic50" T u? =
        PyRes.ok ⟨-Real.log (val.mag * (val.u.scale / 1000)) / Real.log 10,
          ⟨0, 1⟩⟩) ∧
    (∀ obs, (obs = "ki" ∨ obs = "ic50") → ∀ (val : Quantity) (T : ℝ)
      (u? : Option PintUnit), val.u.dim = dimConcentration →
      0 < val.u.scale → val.mag * val.u.scale < 1e-12 →
      convertValue val obs "pic50" T u? =
        PyRes.ok ⟨-1e15, resolveOutUnit "pic50" u?⟩) ∧
    (∀ obs, (obs = "ki" ∨ obs = "ic50") → ∀ (val : Quantity) (T : ℝ)
      (u? : Option PintUnit), val.u.dim = 0 →
      (resolveOutUnit obs u?).dim = dimConcentration →
      convertValue val "pic50" obs T u? =
        PyRes.ok ⟨(10 : ℝ) ^ (-(val.mag * val.u.scale)) * 1000 /
          (resolveOutUnit obs u?).scale, resolveOutUnit obs u?⟩) ∧
    (∀ obs, (obs = "ki" ∨ obs = "ic50") → ∀ (val : Quantity) (T : ℝ)
      (u? : Option PintUnit), val.u.dim = dimEnergyPerMole →
      (resolveOutUnit obs u?).dim = dimConcentration →
      convertValue val "dg" obs T u? =
        PyRes.ok ⟨Real.exp (-val.mag / (gasConstant * T) * val.u.scale) *
          1000 / (resolveOutUnit obs u?).scale, resolveOutUnit obs u?⟩) ∧
    (∀ (val : Quantity) (T : ℝ) (u? : Option PintUnit),
      val.u.dim = dimEnergyPerMole → (resolveOutUnit "pic50" u?).dim = 0 →
      convertValue val "dg" "pic50" T u? =
        PyRes.ok ⟨val.mag / (gasConstant * T) / Real.log 10 * val.u.scale /
          (resolveOutUnit "pic50" u?).scale, resolveOutUnit "pic50" u?⟩) ∧
    (∀ A B, ((A = "ki" ∨ A = "ic50") ∧ (B = "ki" ∨ B = "ic50")) ∨
        (A = "pic50" ∧ B = "pic50") → ∀ (val : Quantity) (T : ℝ)
      (u? : Option PintUnit), val.u.dim = (resolveOutUnit B u?).dim →
      convertValue val A B T u? =
        PyRes.ok ⟨val.mag * val.u.scale / (resolveOutUnit B u?).scale,
          resolveOutUnit B u?⟩) ∧
    (convertValue ⟨Real.exp (-(1.234 * Real.log 10)), molar⟩ "ki" "pic50"
        300 none = PyRes.ok ⟨1.234, ⟨0, 1⟩⟩ ∧ ¬ isTwoDecimal (1.234 : ℝ)) ∧
    (convertError ⟨1, PintUnit.one⟩ ⟨0, PintUnit.one⟩ "pic50" "ki" 300 none =
      PyRes.ok ⟨round2 (Real.log 10 * 1000 / 1e-6), nanomolar⟩) := by
  refine ⟨?_, ?_, ?_, ?_, ?_, ?_, ?_, ?_, ⟨?_, not_isTwoDecimal_1234⟩, ?_⟩
  · intro obs hobs val T u? hdim hscale hru
    by_cases hlt : val.mag * val.u.scale < 1e-12
    · refine ⟨⟨0, resolveOutUnit "dg" u?⟩, ?_, isTwoDecimal_zero⟩
      rcases hobs with h | h <;> subst h
      · exact convertValue_ki_dg_degenerate val T u? hdim hscale hlt
      · exact convertValue_ic50_dg_degenerate val T u? hdim hscale hlt
    · have hge := not_lt.mp hlt
      rcases hobs with h | h <;> subst h
      · exact ⟨_, convertValue_ki_dg_eval val T u? hdim hscale hge hru,
          isTwoDecimal_round2 _⟩
      · exact ⟨_, convertValue_ic50_dg_eval val T u? hdim hscale hge hru,
          isTwoDecimal_round2 _⟩
  · intro val T u? hdim hru
    exact ⟨_, convertValue_pic50_dg_eval val T u? hdim hru,
      isTwoDecimal_round2 _⟩
  · intro obs hobs val T u? hdim hscale hge
    rcases hobs with h | h <;> subst h
    · exact convertValue_ki_pic50_eval val T u? hdim hscale hge
    · exact convertValue_ic50_pic50_eval val T u? hdim hscale hge
  · intro obs hobs val T u? hdim hscale hlt
    rcases hobs with h | h <;> subst h
    · exact convertValue_ki_pic50_degenerate val T u? hdim hscale hlt
    · exact convertValue_ic50_pic50_degenerate val T u? hdim hscale hlt
  · intro obs hobs val T u? hdim hru
    rcases hobs with h | h <;> subst h
    · exact convertValue_pic50_ki_eval val T u? hdim hru
    · exact convertValue_pic50_ic50_eval val T u? hdim hru
  · intro obs hobs val T u? hdim hru
    rcases hobs with h | h <;> subst h
    · exact convertValue_dg_ki_eval val T u? hdim hru
    · exact convertValue_dg_ic50_eval val T u? hdim hru
  · intro val T u? hdim hru
    exact convertValue_dg_pic50_eval val T u? hdim hru
  · rintro A B (⟨hA, hB⟩ | ⟨hA, hB⟩) val T u? hdim
    · rcases hA with h | h <;> subst h <;> rcases hB with h | h <;> subst h <;>
        simp [convertValue, toRes, Quantity.to, hdim]
    · subst hA
      subst hB
      simp [convertValue, toRes, Quantity.to, hdim]
  · have hx : (-4:ℝ) ≤ -(1.234 * Real.log 10) := by
      nlinarith [log10_bounds.2]
    have hexp2lt : Real.exp 1 * Real.exp 1 < 7.4 := by
      nlinarith [Real.exp_one_lt_d9, Real.exp_pos 1]
    have hexp4 : Real.exp 4 < 81 := by
      rw [show (4:ℝ) = (1 + 1) + (1 + 1) by norm_num, Real.exp_add,
        Real.exp_add]
      nlinarith [Real.exp_pos 1]
    have hexpneg4 : Real.exp (-4) * Real.exp 4 = 1 := by
      rw [← Real.exp_add]
      norm_num
    have hge : (1e-12:ℝ) ≤ Real.exp (-(1.234 * Real.log 10)) * molar.scale := by
      rw [molar]
      show (1e-12:ℝ) ≤ Real.exp (-(1.234 * Real.log 10)) * 1000
      have h1 : Real.exp (-4) ≤ Real.exp (-(1.234 * Real.log 10)) :=
        Real.exp_le_exp.mpr hx
      nlinarith [Real.exp_pos 4, Real.exp_pos (-4)]
    rw [convertValue_ki_pic50_eval _ 300 none rfl (by norm_num [molar]) hge]
    simp only [PyRes.ok.injEq, Quantity.mk.injEq, and_true]
    rw [molar]
    show -Real.log (Real.exp (-(1.234 * Real.log 10)) * ((1000:ℝ) / 1000)) /
      Real.log 10 = 1.234
    rw [show ((1000:ℝ) / 1000) = 1 by norm_num, mul_one, Real.log_exp]
    rw [show -(-(1.234 * Real.log 10)) = 1.234 * Real.log 10 by ring]
    exact mul_div_cancel_right₀ _ (ne_of_gt log10_pos)
  · simp [convertError, q10pow, eBind, molarQ, molar, nanomolar, mapRound,
      toRes, Quantity.to, Quantity.fmul, Quantity.neg, Quantity.mulQ,
      Quantity.round2Q, resolveOutUnit, defaultUnit, PintUnit.one,
      dimConcentration, Prod.mk_add_mk]

/-- Witness for C5 amended: a `ki` to `dg` conversion at 1 molar, 300 K,
default output unit yields a 2-decimal magnitude. -/
theorem claimC5_rounding_witness :
    ∃ r, convertValue ⟨1, molar⟩ "ki" "dg" 300 none = PyRes.ok r ∧
      isTwoDecimal r.mag :=
  claimC5_rounding.1 "ki" (Or.inl rfl) ⟨1, molar⟩ 300 none rfl
    (by norm_num [molar])
    (by simp [resolveOutUnit, defaultUnit, kilocaloriesPerMole])

/-- C6 counterexample: for an unsupported original observable code the
code does not raise; it falls off the end of the function and returns
Python `None`. -/
theorem claimC6_counterexample :
    convertValue ⟨1, molar⟩ "xx" "dg" 300 none = PyRes.retNone ∧
    (PyRes.retNone : PyRes Quantity) ≠
      PyRes.raise PyErr.notImplementedError := by
  constructor
  · simp [convertValue]
  · simp

/-- C6 amended: an unsupported final observable paired with a supported
original observable raises `NotImplementedError`; but an unsupported
original observable is not detected at all — the function silently
returns `None` for it, whatever the final observable is. -/
theorem claimC6_unsupported_pairs :
    (∀ o, (o = "dg" ∨ o = "ki" ∨ o = "ic50" ∨ o = "pic50") →
      ∀ f, f ≠ "dg" → f ≠ "ki" → f ≠ "ic50" → f ≠ "pic50" →
      ∀ (val : Quantity) (T : ℝ) (u? : Option PintUnit),
        convertValue val o f T u? = PyRes.raise PyErr.notImplementedError) ∧
    (∀ o, o ≠ "dg" → o ≠ "ki" → o ≠ "ic50" → o ≠ "pic50" →
      ∀ f (val : Quantity) (T : ℝ) (u? : Option PintUnit),
        convertValue val o f T u? = PyRes.retNone) := by
  constructor
  · intro o ho f hf1 hf2 hf3 hf4 val T u?
    rcases ho with h | h | h | h <;> subst h <;>
      simp [convertValue, hf1, hf2, hf3, hf4]
  · intro o ho1 ho2 ho3 ho4 f val T u?
    simp [convertValue, ho1, ho2, ho3, ho4]

/-- Witness for C6 amended: `ki` to the unsupported code `xx` raises, and
the unsupported original code `xx` yields `None`. -/
theorem claimC6_unsupported_pairs_witness :
    convertValue ⟨1, molar⟩ "ki" "xx" 300 none =
      PyRes.raise PyErr.notImplementedError ∧
    convertValue ⟨1, molar⟩ "xx" "dg" 300 none = PyRes.retNone :=
  ⟨claimC6_unsupported_pairs.1 "ki" (Or.inr (Or.inl rfl)) "xx" (by decide)
      (by decide) (by decide) (by decide) ⟨1, molar⟩ 300 none,
    claimC6_unsupported_pairs.2 "xx" (by decide) (by decide) (by decide)
      (by decide) "dg" ⟨1, molar⟩ 300 none⟩
